import Mathlib

/-!
Verification of the event routing and dispatch engine of `miditokeydaemon`
(`src/main.rs`), shallowly embedded in Lean.

Conventions of the embedding:
* `u8` and `u64` values become `Nat` (all arithmetic in the dispatch path is
  non-wrapping; the one saturating conversion, `f32 as u8` in `scale_value`,
  is modelled explicitly with `Int.toNat` and `Nat.min 255`).
* `Instant` becomes a `Nat` timestamp in milliseconds; `Instant::elapsed`
  becomes truncated `Nat` subtraction `now - last` (Rust monotonic instants
  recorded in the past make the subtraction non-negative).
* `HashMap<String, Instant>` becomes an association list
  `List (String × Nat)` with map semantics (`lookupState` / `insertState`,
  where insertion replaces an existing binding, as `HashMap::insert` does).
* The external effects of `process_midi_message` — keymap evaluation through
  `enigo_dsl::eval` and process spawning through `Command::spawn` — are
  abstracted by success oracles `evalOk, spawnOk : String → Bool`, and the
  observable actions taken are collected in a `DispatchOutcome` record.
* Rust panics (`expect` on spawn failure, out-of-bounds indexing of the raw
  message) are modelled by the `ProcResult.panicked` constructor, which
  aborts processing of the remaining rules.
* The `f32` arithmetic of `scale_value` is modelled as exact rational
  arithmetic.  On the actual domain (`input ≤ 127`, `min, max ≤ 255`) the
  two agree: every intermediate `f32` value has magnitude at most 255 + ε, so
  the accumulated rounding error is below `2^-15`, while the exact value
  `min + input * (max - min) / 127` is either an integer or at distance at
  least `1/254` from the nearest half-integer (127 is prime, so the value is
  a half-integer only when it is an integer); hence `f32` round-to-nearest
  of the computed value equals real round-to-nearest of the exact value.
  Rust's `f32::round` (half away from zero) and Mathlib's `round` (half up)
  also agree there, both because no exact half-integer case occurs and
  because every reachable value is non-negative.
-/

namespace Mtkd

/-- `struct VelocityScale { min: u8, max: u8 }` from `src/main.rs`. -/
structure VelocityScale where
  min : Nat
  max : Nat

/-- `struct MidiMapVelocityOptions { debounce: Option<u64>, scale: Option<VelocityScale> }`. -/
structure MidiMapVelocityOptions where
  debounce : Option Nat
  scale : Option VelocityScale

/-- `struct MidiMapOptions { velocity: Option<MidiMapVelocityOptions> }`. -/
structure MidiMapOptions where
  velocity : Option MidiMapVelocityOptions

/-- `struct MidiMap` from `src/main.rs`: one rule of the mapping table. -/
structure MidiMap where
  midi_id : Nat
  note : Nat
  keymap : Option String
  velocity : Option Nat
  command : Option String
  options : Option MidiMapOptions
  mouse : Option String

/-- `struct Settings { device_port_name: String, midi_mapping: Vec<MidiMap> }`. -/
structure Settings where
  device_port_name : String
  midi_mapping : List MidiMap

/-- `fn match_velocity(velocity: Option<u8>, mapping: &MidiMap) -> bool`:
`mapping.velocity.map_or(true, |mv| velocity.map_or(true, |av| av == mv))`. -/
def match_velocity (velocity : Option Nat) (mapping : MidiMap) : Bool :=
  match mapping.velocity with
  | none => true
  | some mapping_velocity =>
    match velocity with
    | none => true
    | some actual_velocity => actual_velocity == mapping_velocity

/-- `fn scale_value(input: u8, min: u8, max: u8) -> u8`, with the `f32`
arithmetic modelled as exact rational arithmetic (see the file header for why
the two agree on the u8 domain) and `output.round() as u8` modelled as
round-to-nearest followed by the saturating float-to-integer cast. -/
def scale_value (input mn mx : Nat) : Nat :=
  let range : ℚ := (mx : ℚ) - (mn : ℚ)
  let scale_factor : ℚ := range / 127
  let output : ℚ := (mn : ℚ) + (input : ℚ) * scale_factor
  (round output).toNat.min 255

/-- `fn get_computed_velocity(velocity: Option<u8>, mapping: &MidiMap) -> Option<u8>`.
The two `?` operators of
`let velocity_scale = mapping.options.clone()?.velocity?.scale;` return `none`
from the whole function when `options` or `options.velocity` is absent. -/
def get_computed_velocity (velocity : Option Nat) (mapping : MidiMap) : Option Nat :=
  match mapping.options with
  | none => none
  | some opts =>
    match opts.velocity with
    | none => none
    | some vopts =>
      match vopts.scale with
      | some scale =>
        match velocity with
        | none => none
        | some v => some (scale_value v scale.min scale.max)
      | none => velocity

/-- `fn get_debounce_duration(mapping: &MidiMap) -> Duration`, in milliseconds:
`options.and_then(|o| o.velocity).and_then(|v| v.debounce).unwrap_or(200)`. -/
def get_debounce_duration (mapping : MidiMap) : Nat :=
  ((mapping.options.bind fun o => o.velocity).bind fun v => v.debounce).getD 200

/-- Association-list lookup, modelling `HashMap` key lookup
(used for `debounce_state.clone().into_keys().find(|k| k == command_str)`
followed by `debounce_state.get_mut(&key)`). -/
def lookupState (k : String) : List (String × Nat) → Option Nat
  | [] => none
  | (k2, v) :: rest => if k2 = k then some v else lookupState k rest

/-- Association-list insertion with replacement, modelling `HashMap::insert`. -/
def insertState (k : String) (v : Nat) : List (String × Nat) → List (String × Nat)
  | [] => [(k, v)]
  | (k2, v2) :: rest => if k2 = k then (k, v) :: rest else (k2, v2) :: insertState k v rest

/-- The inline debounce check of `process_midi_message` (src/main.rs lines
176–190), extracted as the tracker the spec calls `should_dispatch`: look up
`command`; if present and `now - last < window`, skip (`false`, state
unchanged); otherwise insert `now` under `command` and dispatch (`true`). -/
def should_dispatch (command : String) (window now : Nat)
    (state : List (String × Nat)) : Bool × List (String × Nat) :=
  match lookupState command state with
  | some last =>
    if now - last < window then (false, state)
    else (true, insertState command now state)
  | none => (true, insertState command now state)

/-- The match condition of the dispatch loop (src/main.rs lines 147–149):
`midi_id == mapping.midi_id && note == mapping.note && match_velocity(...)`. -/
def mapping_match (midi_id note : Nat) (device_velocity : Option Nat)
    (mapping : MidiMap) : Bool :=
  midi_id == mapping.midi_id && note == mapping.note
    && match_velocity device_velocity mapping

/-- Result of running (part of) `process_midi_message`: either a normal
return or a Rust panic with its message. -/
inductive ProcResult (α : Type) where
  | ok : α → ProcResult α
  | panicked : String → ProcResult α
deriving DecidableEq

/-- Sequencing of panicking computations: a panic propagates. -/
def ProcResult.bind {α β : Type} : ProcResult α → (α → ProcResult β) → ProcResult β
  | .ok a, f => f a
  | .panicked s, _ => .panicked s

/-- The observable actions of one `process_midi_message` invocation:
the debounce state, the spawned commands (with the optional `MIDI_VELOCITY`
environment value), the keymaps handed to `enigo_dsl::eval` and those whose
evaluation failed, each in order. -/
structure DispatchOutcome where
  state : List (String × Nat)
  spawned : List (String × Option Nat)
  keymapEvals : List String
  keymapErrors : List String
deriving DecidableEq

/-- The `if let Some(keymap) = &mapping.keymap` block of the dispatch loop
(src/main.rs lines 161–167): hand the keymap to `enigo_dsl::eval`; on
failure, log the error and carry on. -/
def stepKeymap (evalOk : String → Bool) (mapping : MidiMap)
    (acc : DispatchOutcome) : DispatchOutcome :=
  match mapping.keymap with
  | some keymap =>
    if evalOk keymap then
      { acc with keymapEvals := acc.keymapEvals ++ [keymap] }
    else
      { acc with
          keymapEvals := acc.keymapEvals ++ [keymap],
          keymapErrors := acc.keymapErrors ++ [keymap] }
  | none => acc

/-- The `if let Some(command) = &mapping.command` block of the dispatch loop
(src/main.rs lines 169–207): skip empty commands; debounce; spawn through
`sh -c`, panicking via `expect` when the spawn fails, with `MIDI_VELOCITY`
set when `get_computed_velocity` is `Some`. -/
def stepCommand (device_velocity : Option Nat) (spawnOk : String → Bool)
    (now : Nat) (mapping : MidiMap) (acc1 : DispatchOutcome) :
    ProcResult DispatchOutcome :=
  match mapping.command with
  | none => .ok acc1
  | some command =>
    if command = "" then .ok acc1
    else
      match should_dispatch command (get_debounce_duration mapping) now acc1.state with
      | (false, _) => .ok acc1
      | (true, state2) =>
        if spawnOk command then
          .ok { acc1 with
                  state := state2,
                  spawned := acc1.spawned
                    ++ [(command, get_computed_velocity device_velocity mapping)] }
        else
          .panicked (command ++ " command failed to start")

/-- The body of the `for mapping in &settings.midi_mapping` loop of
`process_midi_message` for one rule (src/main.rs lines 146–208): match,
keymap block, command block. -/
def stepMapping (midi_id note : Nat) (device_velocity : Option Nat)
    (evalOk spawnOk : String → Bool) (now : Nat)
    (mapping : MidiMap) (acc : DispatchOutcome) : ProcResult DispatchOutcome :=
  if !(mapping_match midi_id note device_velocity mapping) then .ok acc
  else stepCommand device_velocity spawnOk now mapping (stepKeymap evalOk mapping acc)

/-- The rule loop of `process_midi_message`, first-to-last; a panic aborts
the remaining rules. -/
def runMappings (midi_id note : Nat) (device_velocity : Option Nat)
    (evalOk spawnOk : String → Bool) (now : Nat) :
    List MidiMap → DispatchOutcome → ProcResult DispatchOutcome
  | [], acc => .ok acc
  | m :: ms, acc =>
    match stepMapping midi_id note device_velocity evalOk spawnOk now m acc with
    | .ok acc2 => runMappings midi_id note device_velocity evalOk spawnOk now ms acc2
    | .panicked s => .panicked s

/-- `fn process_midi_message(message, settings, debounce_state)` —
`let (midi_id, note, device_velocity) = (message[0], message[1], message.get(2).cloned());`
panics (index out of bounds) when the message has fewer than 2 bytes, then
runs the rule loop. -/
def process_midi_message (message : List Nat) (settings : Settings)
    (debounce_state : List (String × Nat)) (now : Nat)
    (evalOk spawnOk : String → Bool) : ProcResult DispatchOutcome :=
  match message with
  | midi_id :: note :: rest =>
    runMappings midi_id note rest.head? evalOk spawnOk now settings.midi_mapping
      { state := debounce_state, spawned := [], keymapEvals := [], keymapErrors := [] }
  | _ => .panicked "index out of bounds"

/-- Spawned commands of a dispatch result (empty when it panicked). -/
def spawnedOf : ProcResult DispatchOutcome → List (String × Option Nat)
  | .ok acc => acc.spawned
  | .panicked _ => []

/-- Final debounce state of a dispatch result (empty when it panicked). -/
def stateOf : ProcResult DispatchOutcome → List (String × Nat)
  | .ok acc => acc.state
  | .panicked _ => []

/-- C1 — the code evaluated at the failing input: with a raw velocity of 100
and a rule that has no options at all (or options without a velocity
section), `get_computed_velocity` returns `none`, not the raw velocity; so
`MIDI_VELOCITY` is not injected although no scale is configured. -/
theorem get_computed_velocity_none_without_options :
    get_computed_velocity (some 100)
      { midi_id := 144, note := 60, keymap := none, velocity := none,
        command := some "echo hi", options := none, mouse := none } = none ∧
    get_computed_velocity (some 100)
      { midi_id := 144, note := 60, keymap := none, velocity := none,
        command := some "echo hi", options := some { velocity := none },
        mouse := none } = none :=
  ⟨rfl, rfl⟩

/-- C4 — the Matcher predicate is exactly: ids equal, notes equal, and the
velocity constraint is absent, or the event velocity is absent, or the two
velocities are equal; it is a pure function. -/
theorem mapping_match_iff (midi_id note : Nat) (device_velocity : Option Nat)
    (m : MidiMap) :
    mapping_match midi_id note device_velocity m = true ↔
      midi_id = m.midi_id ∧ note = m.note ∧
        (m.velocity = none ∨ device_velocity = none ∨ device_velocity = m.velocity) := by
  unfold mapping_match match_velocity
  cases hm : m.velocity <;> cases hd : device_velocity <;>
    simp_all [Bool.and_eq_true, beq_iff_eq]
  tauto

theorem lookupState_insertState_self (k : String) (v : Nat)
    (s : List (String × Nat)) :
    lookupState k (insertState k v s) = some v := by
  induction s with
  | nil => simp [insertState, lookupState]
  | cons hd tl ih =>
    obtain ⟨k2, v2⟩ := hd
    by_cases h : k2 = k <;> simp [insertState, lookupState, h, ih]

theorem lookupState_insertState_ne (k k2 : String) (v : Nat)
    (s : List (String × Nat)) (h : k2 ≠ k) :
    lookupState k2 (insertState k v s) = lookupState k2 s := by
  induction s with
  | nil => simp [insertState, lookupState, Ne.symm h]
  | cons hd tl ih =>
    obtain ⟨k3, v3⟩ := hd
    by_cases h3 : k3 = k
    · subst h3
      simp [insertState, lookupState, Ne.symm h]
    · simp [insertState, lookupState, h3, ih]

theorem stepKeymap_state (evalOk : String → Bool) (m : MidiMap)
    (acc : DispatchOutcome) : (stepKeymap evalOk m acc).state = acc.state := by
  unfold stepKeymap
  cases m.keymap with
  | none => rfl
  | some keymap => by_cases he : evalOk keymap <;> simp [he]

theorem stepKeymap_spawned (evalOk : String → Bool) (m : MidiMap)
    (acc : DispatchOutcome) : (stepKeymap evalOk m acc).spawned = acc.spawned := by
  unfold stepKeymap
  cases m.keymap with
  | none => rfl
  | some keymap => by_cases he : evalOk keymap <;> simp [he]

theorem stepCommand_eq_some (device_velocity : Option Nat)
    (spawnOk : String → Bool) (now : Nat) (m : MidiMap)
    (acc1 : DispatchOutcome) (c : String) (h : m.command = some c) :
    stepCommand device_velocity spawnOk now m acc1 =
      if c = "" then .ok acc1
      else
        match should_dispatch c (get_debounce_duration m) now acc1.state with
        | (false, _) => .ok acc1
        | (true, state2) =>
          if spawnOk c then
            .ok { acc1 with
                    state := state2,
                    spawned := acc1.spawned
                      ++ [(c, get_computed_velocity device_velocity m)] }
          else
            .panicked (c ++ " command failed to start") := by
  unfold stepCommand
  rw [h]

/-- C5 — the debounce check: if the command key is absent, or the elapsed
time since the recorded dispatch is at least the window, it returns `true`
and records `now` under the command key; otherwise it returns `false` and
leaves the state unmodified.  Consequently two checks for the same command
(the first from a state not containing the key) yield `(true, false)` when
separated by less than the window and `(true, true)` when separated by at
least the window. -/
theorem should_dispatch_contract (cmd : String) (window now now2 : Nat)
    (state : List (String × Nat)) :
    (lookupState cmd state = none →
      should_dispatch cmd window now state = (true, insertState cmd now state)) ∧
    (∀ last, lookupState cmd state = some last → window ≤ now - last →
      should_dispatch cmd window now state = (true, insertState cmd now state)) ∧
    (∀ last, lookupState cmd state = some last → now - last < window →
      should_dispatch cmd window now state = (false, state)) ∧
    (lookupState cmd state = none →
      (should_dispatch cmd window now state).1 = true ∧
        (should_dispatch cmd window now2
            (should_dispatch cmd window now state).2).1
          = decide (window ≤ now2 - now)) := by
  refine ⟨?_, ?_, ?_, ?_⟩
  · intro h
    simp [should_dispatch, h]
  · intro last h hw
    simp [should_dispatch, h, Nat.not_lt.mpr hw]
  · intro last h hw
    simp [should_dispatch, h, hw]
  · intro h
    constructor
    · simp [should_dispatch, h]
    · have h1 : should_dispatch cmd window now state
          = (true, insertState cmd now state) := by
        simp [should_dispatch, h]
      rw [h1]
      by_cases h2 : now2 - now < window
      · simp [should_dispatch, lookupState_insertState_self, h2, Nat.not_le.mpr h2]
      · simp [should_dispatch, lookupState_insertState_self, h2, Nat.not_lt.mp h2]

/-- C5 witness: the contract evaluated at command `"x"`, window 200,
initial dispatch at time 0 from the empty state, and second checks at
times 150 (debounced) and 200 (dispatched). -/
theorem should_dispatch_contract_witness :
    (should_dispatch "x" 200 0 [] = (true, [("x", 0)]) ∧
      (should_dispatch "x" 200 150 (should_dispatch "x" 200 0 []).2).1 = false) ∧
    (should_dispatch "x" 200 0 [] = (true, [("x", 0)]) ∧
      (should_dispatch "x" 200 200 (should_dispatch "x" 200 0 []).2).1 = true) := by
  have h150 := (should_dispatch_contract "x" 200 0 150 []).2.2.2 rfl
  have h200 := (should_dispatch_contract "x" 200 0 200 []).2.2.2 rfl
  have h0 := (should_dispatch_contract "x" 200 0 0 []).1 rfl
  refine ⟨⟨?_, ?_⟩, ⟨?_, ?_⟩⟩
  · rw [h0]; rfl
  · rw [h150.2]; decide
  · rw [h0]; rfl
  · rw [h200.2]; decide

/-- C6 — the debounce state is keyed by the literal command string, not by
rule identity: a rule step that returns normally changes the debounce state
at most at the key equal to the rule's command string (so two rules with
textually identical commands read and write the same single timer entry, and
rules with different command strings never touch each other's entries), and
when it does change that entry it records the current time there. -/
theorem debounce_keyed_by_command (midi_id note : Nat)
    (device_velocity : Option Nat) (evalOk spawnOk : String → Bool)
    (now : Nat) (r : MidiMap) (acc acc2 : DispatchOutcome) (c : String)
    (hcmd : r.command = some c)
    (hstep : stepMapping midi_id note device_velocity evalOk spawnOk now r acc
      = .ok acc2) :
    (∀ k, k ≠ c → lookupState k acc2.state = lookupState k acc.state) ∧
    (acc2.state = acc.state ∨ lookupState c acc2.state = some now) := by
  unfold stepMapping at hstep
  by_cases hm : mapping_match midi_id note device_velocity r = true
  · rw [if_neg (by simp [hm]),
      stepCommand_eq_some device_velocity spawnOk now r _ c hcmd] at hstep
    by_cases hc0 : c = ""
    · rw [if_pos hc0] at hstep
      injection hstep with h
      subst h
      rw [stepKeymap_state]
      exact ⟨fun k _ => rfl, Or.inl rfl⟩
    · rw [if_neg hc0] at hstep
      split at hstep
      next st2 heq =>
        injection hstep with h
        subst h
        rw [stepKeymap_state]
        exact ⟨fun k _ => rfl, Or.inl rfl⟩
      next st2 heq =>
        have hst2 : st2 = insertState c now (stepKeymap evalOk r acc).state := by
          unfold should_dispatch at heq
          split at heq
          next last hl =>
            by_cases hlt : now - last < get_debounce_duration r
            · rw [if_pos hlt] at heq
              injection heq with h1 h2
              simp at h1
            · rw [if_neg hlt] at heq
              injection heq with h1 h2
              exact h2.symm
          next hl =>
            injection heq with h1 h2
            exact h2.symm
        by_cases hsp : spawnOk c = true
        · rw [if_pos hsp] at hstep
          injection hstep with h
          subst h
          refine ⟨fun k hk => ?_, Or.inr ?_⟩
          · show lookupState k st2 = lookupState k acc.state
            rw [hst2, lookupState_insertState_ne c k now _ hk, stepKeymap_state]
          · show lookupState c st2 = some now
            rw [hst2, lookupState_insertState_self]
        · rw [if_neg hsp] at hstep
          cases hstep
  · rw [if_pos (by simp [hm])] at hstep
    injection hstep with h
    subst h
    exact ⟨fun k _ => rfl, Or.inl rfl⟩

/-- C6 witness: a concrete rule with command `"run"` matched at time 5 from
the empty debounce state: other keys are untouched and the `"run"` entry
records time 5. -/
theorem debounce_keyed_by_command_witness :
    (∀ k, k ≠ "run" →
      lookupState k
        (stateOf (stepMapping 1 2 none (fun _ => true) (fun _ => true) 5
          { midi_id := 1, note := 2, keymap := none, velocity := none,
            command := some "run", options := none, mouse := none }
          { state := [], spawned := [], keymapEvals := [], keymapErrors := [] }))
        = lookupState k []) ∧
    lookupState "run"
        (stateOf (stepMapping 1 2 none (fun _ => true) (fun _ => true) 5
          { midi_id := 1, note := 2, keymap := none, velocity := none,
            command := some "run", options := none, mouse := none }
          { state := [], spawned := [], keymapEvals := [], keymapErrors := [] }))
      = some 5 := by
  have h := debounce_keyed_by_command 1 2 none (fun _ => true) (fun _ => true) 5
    { midi_id := 1, note := 2, keymap := none, velocity := none,
      command := some "run", options := none, mouse := none }
    { state := [], spawned := [], keymapEvals := [], keymapErrors := [] }
    { state := [("run", 5)], spawned := [("run", none)],
      keymapEvals := [], keymapErrors := [] }
    "run" rfl rfl
  refine ⟨fun k hk => h.1 k hk, ?_⟩
  rcases h.2 with h2 | h2
  · exact absurd h2 (by decide)
  · exact h2

/-- C9 — a matching rule whose command string is empty never reaches the
debounce tracker or the spawn step: the rule step returns normally with the
debounce state and spawned-command list unchanged. -/
theorem empty_command_no_debounce_no_spawn (midi_id note : Nat)
    (device_velocity : Option Nat) (evalOk spawnOk : String → Bool) (now : Nat)
    (r : MidiMap) (acc : DispatchOutcome) (hcmd : r.command = some "") :
    ∃ acc2,
      stepMapping midi_id note device_velocity evalOk spawnOk now r acc
        = .ok acc2 ∧
      acc2.state = acc.state ∧ acc2.spawned = acc.spawned := by
  unfold stepMapping
  by_cases hm : mapping_match midi_id note device_velocity r = true
  · rw [if_neg (by simp [hm]),
      stepCommand_eq_some device_velocity spawnOk now r _ "" hcmd, if_pos rfl]
    exact ⟨_, rfl, stepKeymap_state _ _ _, stepKeymap_spawned _ _ _⟩
  · rw [if_pos (by simp [hm])]
    exact ⟨acc, rfl, rfl, rfl⟩

/-- C9 witness: a concrete matching rule with the empty command, processed
at time 7 from a non-empty debounce state: the state and the spawn list are
untouched. -/
theorem empty_command_no_debounce_no_spawn_witness :
    ∃ acc2,
      stepMapping 1 2 none (fun _ => true) (fun _ => true) 7
          { midi_id := 1, note := 2, keymap := some "k", velocity := none,
            command := some "", options := none, mouse := none }
          { state := [("x", 3)], spawned := [], keymapEvals := [],
            keymapErrors := [] }
        = .ok acc2 ∧
      acc2.state = [("x", 3)] ∧ acc2.spawned = [] :=
  empty_command_no_debounce_no_spawn 1 2 none (fun _ => true) (fun _ => true) 7
    { midi_id := 1, note := 2, keymap := some "k", velocity := none,
      command := some "", options := none, mouse := none }
    { state := [("x", 3)], spawned := [], keymapEvals := [], keymapErrors := [] }
    rfl

/-- Replace the `mouse` field of a rule. -/
def setMouse (f : Option String → Option String) (m : MidiMap) : MidiMap :=
  { m with mouse := f m.mouse }

theorem stepMapping_setMouse (f : Option String → Option String)
    (midi_id note : Nat) (dv : Option Nat) (eo so : String → Bool) (now : Nat)
    (m : MidiMap) (acc : DispatchOutcome) :
    stepMapping midi_id note dv eo so now (setMouse f m) acc
      = stepMapping midi_id note dv eo so now m acc := by
  cases m
  rfl

theorem runMappings_setMouse (f : Option String → Option String)
    (midi_id note : Nat) (dv : Option Nat) (eo so : String → Bool) (now : Nat)
    (l : List MidiMap) (acc : DispatchOutcome) :
    runMappings midi_id note dv eo so now (l.map (setMouse f)) acc
      = runMappings midi_id note dv eo so now l acc := by
  induction l generalizing acc with
  | nil => rfl
  | cons m ms ih =>
    simp only [List.map_cons, runMappings, stepMapping_setMouse]
    cases stepMapping midi_id note dv eo so now m acc with
    | ok acc2 => exact ih acc2
    | panicked s => rfl

/-- C10 — the `mouse` field of a rule has no effect on dispatch: rewriting
the `mouse` fields of all rules arbitrarily leaves the entire result of
`process_midi_message` (matching, keymap evaluations and errors, debounce
state, spawned commands, panics) unchanged. -/
theorem mouse_field_no_effect (f : Option String → Option String)
    (message : List Nat) (s : Settings)
    (debounce_state : List (String × Nat)) (now : Nat)
    (evalOk spawnOk : String → Bool) :
    process_midi_message message
        { s with midi_mapping := s.midi_mapping.map (setMouse f) }
        debounce_state now evalOk spawnOk
      = process_midi_message message s debounce_state now evalOk spawnOk := by
  cases message with
  | nil => rfl
  | cons midi_id rest1 =>
    cases rest1 with
    | nil => rfl
    | cons note rest =>
      simp only [process_midi_message]
      exact runMappings_setMouse f midi_id note rest.head? evalOk spawnOk now
        s.midi_mapping _

theorem scale_value_at_zero (mn mx : Nat) (h : mn ≤ 255) :
    scale_value 0 mn mx = mn := by
  have h0 : (mn : ℚ) + ((0 : ℕ) : ℚ) * (((mx : ℚ) - (mn : ℚ)) / 127)
      = ((mn : ℕ) : ℚ) := by
    push_cast
    ring
  simp only [scale_value]
  rw [h0, round_natCast, Int.toNat_natCast]
  exact Nat.min_eq_left h

theorem scale_value_at_127 (mn mx : Nat) (h : mx ≤ 255) :
    scale_value 127 mn mx = mx := by
  have h0 : (mn : ℚ) + ((127 : ℕ) : ℚ) * (((mx : ℚ) - (mn : ℚ)) / 127)
      = ((mx : ℕ) : ℚ) := by
    push_cast
    field_simp
  simp only [scale_value]
  rw [h0, round_natCast, Int.toNat_natCast]
  exact Nat.min_eq_left h

theorem scale_value_mono (mn mx a b : Nat) (hmm : mn ≤ mx) (hab : a ≤ b) :
    scale_value a mn mx ≤ scale_value b mn mx := by
  have hr : (0 : ℚ) ≤ ((mx : ℚ) - (mn : ℚ)) / 127 := by
    have h1 : (mn : ℚ) ≤ (mx : ℚ) := by exact_mod_cast hmm
    have h2 : (0 : ℚ) ≤ (mx : ℚ) - (mn : ℚ) := by linarith
    positivity
  have key : (mn : ℚ) + ((a : ℕ) : ℚ) * (((mx : ℚ) - (mn : ℚ)) / 127)
      ≤ (mn : ℚ) + ((b : ℕ) : ℚ) * (((mx : ℚ) - (mn : ℚ)) / 127) := by
    have hab2 : ((a : ℕ) : ℚ) ≤ ((b : ℕ) : ℚ) := by exact_mod_cast hab
    exact add_le_add_left (mul_le_mul_of_nonneg_right hab2 hr) _
  simp only [scale_value]
  have h1 := Int.toNat_le_toNat (Int.floor_mono (by linarith [key] :
    (mn : ℚ) + ((a : ℕ) : ℚ) * (((mx : ℚ) - (mn : ℚ)) / 127) + 1 / 2
      ≤ (mn : ℚ) + ((b : ℕ) : ℚ) * (((mx : ℚ) - (mn : ℚ)) / 127) + 1 / 2))
  rw [← round_eq, ← round_eq] at h1
  exact min_le_min h1 (le_refl 255)

theorem scale_value_at_64 : scale_value 64 0 200 = 101 := by
  have h0 : ((0 : ℕ) : ℚ) + ((64 : ℕ) : ℚ) * ((((200 : ℕ) : ℚ) - ((0 : ℕ) : ℚ)) / 127)
      = 12800 / 127 := by
    push_cast
    ring
  simp only [scale_value]
  rw [h0]
  have hr : round ((12800 : ℚ) / 127) = 101 := by
    rw [round_eq, Int.floor_eq_iff]
    constructor <;> norm_num
  rw [hr]
  rfl

/-- C8 — `scale_value` computes round-to-nearest of the real-arithmetic
linear map `min + raw * (max - min) / 127`: raw 0 maps to `min`, raw 127
maps to `max`, the map is monotonically non-decreasing for an ascending
scale (`min < max`), a descending scale (`max < min`) is permitted (the
endpoint identities hold for arbitrary `min`, `max`), and for the scale
`{min := 0, max := 200}` raw 127 yields 200, raw 0 yields 0 and raw 64
yields 101. -/
theorem scale_value_spec (mn mx a b : Nat) :
    (mn ≤ 255 → scale_value 0 mn mx = mn) ∧
    (mx ≤ 255 → scale_value 127 mn mx = mx) ∧
    (mn < mx → a ≤ b → scale_value a mn mx ≤ scale_value b mn mx) ∧
    scale_value 127 0 200 = 200 ∧ scale_value 0 0 200 = 0 ∧
    scale_value 64 0 200 = 101 :=
  ⟨scale_value_at_zero mn mx, scale_value_at_127 mn mx,
   fun h hab => scale_value_mono mn mx a b h.le hab,
   scale_value_at_127 0 200 (by norm_num),
   scale_value_at_zero 0 200 (by norm_num),
   scale_value_at_64⟩

/-- C8 witness: the scale `{min := 10, max := 250}` maps raw 0 to 10 and
raw 127 to 250, and raw 3 to no more than raw 7. -/
theorem scale_value_spec_witness :
    scale_value 0 10 250 = 10 ∧ scale_value 127 10 250 = 250 ∧
    scale_value 3 10 250 ≤ scale_value 7 10 250 :=
  ⟨(scale_value_spec 10 250 3 7).1 (by norm_num),
   (scale_value_spec 10 250 3 7).2.1 (by norm_num),
   (scale_value_spec 10 250 3 7).2.2.1 (by norm_num) (by norm_num)⟩

/-- C3 counterexample — the one-byte message `[144]` is not a handled decode
error: `process_midi_message` hits the out-of-bounds index of
`(message[0], message[1], ...)` and panics instead of reporting and
skipping. -/
theorem short_message_counterexample :
    process_midi_message [144]
        { device_port_name := "pad", midi_mapping := [] } [] 0
        (fun _ => true) (fun _ => true)
      = .panicked "index out of bounds" := rfl

/-- C3 amended — a raw MIDI message with fewer than 2 bytes makes
`process_midi_message` panic with an index-out-of-bounds error: the decode
failure is not caught, reported or skipped, and no rule of that event is
processed. -/
theorem short_message_panics (message : List Nat) (s : Settings)
    (debounce_state : List (String × Nat)) (now : Nat)
    (evalOk spawnOk : String → Bool) (h : message.length < 2) :
    process_midi_message message s debounce_state now evalOk spawnOk
      = .panicked "index out of bounds" := by
  cases message with
  | nil => rfl
  | cons a rest1 =>
    cases rest1 with
    | nil => rfl
    | cons b rest => simp only [List.length_cons] at h; omega

/-- C3 witness: the amended claim applied to the one-byte message `[144]`. -/
theorem short_message_panics_witness :
    ([144] : List Nat).length < 2 ∧
    process_midi_message [144]
        { device_port_name := "dev", midi_mapping := [] } [] 5
        (fun _ => true) (fun _ => true)
      = .panicked "index out of bounds" :=
  ⟨by decide,
   short_message_panics [144]
     { device_port_name := "dev", midi_mapping := [] } [] 5
     (fun _ => true) (fun _ => true) (by decide)⟩

/-- C2 counterexample — spawn failures are not reported-and-continued: with
two matching rules whose commands are `acmd` and `bcmd` and a spawn that
fails for `acmd`, `process_midi_message` panics (the `expect` call) and the
second rule's command is never spawned. -/
theorem spawn_failure_counterexample :
    process_midi_message [144, 60, 100]
        { device_port_name := "pad",
          midi_mapping :=
            [{ midi_id := 144, note := 60, keymap := none, velocity := none,
               command := some "acmd", options := none, mouse := none },
             { midi_id := 144, note := 60, keymap := none, velocity := none,
               command := some "bcmd", options := none, mouse := none }] }
        [] 0 (fun _ => true) (fun c => !(c == "acmd"))
      = .panicked ("acmd" ++ " command failed to start") ∧
    spawnedOf (process_midi_message [144, 60, 100]
        { device_port_name := "pad",
          midi_mapping :=
            [{ midi_id := 144, note := 60, keymap := none, velocity := none,
               command := some "acmd", options := none, mouse := none },
             { midi_id := 144, note := 60, keymap := none, velocity := none,
               command := some "bcmd", options := none, mouse := none }] }
        [] 0 (fun _ => true) (fun c => !(c == "acmd"))) = [] :=
  ⟨rfl, rfl⟩

/-- C2 amended — when a matching rule's non-empty command passes the
debounce check but its spawn fails, the rule step of `process_midi_message`
panics (via `expect`) with the message `<command> command failed to start`,
and the remaining rules of the event are not processed. -/
theorem spawn_failure_aborts_event (midi_id note : Nat) (dv : Option Nat)
    (evalOk spawnOk : String → Bool) (now : Nat) (r : MidiMap)
    (acc : DispatchOutcome) (c : String)
    (hmatch : mapping_match midi_id note dv r = true)
    (hcmd : r.command = some c) (hne : c ≠ "")
    (hdisp : (should_dispatch c (get_debounce_duration r) now acc.state).1 = true)
    (hfail : spawnOk c = false) :
    stepMapping midi_id note dv evalOk spawnOk now r acc
        = .panicked (c ++ " command failed to start") ∧
    ∀ ms, runMappings midi_id note dv evalOk spawnOk now (r :: ms) acc
        = .panicked (c ++ " command failed to start") := by
  have h1 : stepMapping midi_id note dv evalOk spawnOk now r acc
      = .panicked (c ++ " command failed to start") := by
    unfold stepMapping
    rw [if_neg (by simp [hmatch]),
      stepCommand_eq_some dv spawnOk now r _ c hcmd, if_neg hne]
    have hds : (should_dispatch c (get_debounce_duration r) now
        (stepKeymap evalOk r acc).state).1 = true := by
      rw [stepKeymap_state]
      exact hdisp
    split
    next st2 heq =>
      rw [heq] at hds
      simp at hds
    next st2 heq =>
      rw [if_neg (by simp [hfail])]
  refine ⟨h1, fun ms => ?_⟩
  simp only [runMappings, h1]

/-- C2 witness for the amended claim: a concrete rule with command `acmd`,
matched at time 0 from the empty debounce state, whose spawn fails. -/
theorem spawn_failure_aborts_event_witness :
    stepMapping 144 60 (some 100) (fun _ => true) (fun c => !(c == "acmd")) 0
        { midi_id := 144, note := 60, keymap := none, velocity := none,
          command := some "acmd", options := none, mouse := none }
        { state := [], spawned := [], keymapEvals := [], keymapErrors := [] }
      = .panicked ("acmd" ++ " command failed to start") ∧
    ∀ ms,
      runMappings 144 60 (some 100) (fun _ => true) (fun c => !(c == "acmd")) 0
          ({ midi_id := 144, note := 60, keymap := none, velocity := none,
             command := some "acmd", options := none, mouse := none } :: ms)
          { state := [], spawned := [], keymapEvals := [], keymapErrors := [] }
        = .panicked ("acmd" ++ " command failed to start") :=
  spawn_failure_aborts_event 144 60 (some 100) (fun _ => true)
    (fun c => !(c == "acmd")) 0
    { midi_id := 144, note := 60, keymap := none, velocity := none,
      command := some "acmd", options := none, mouse := none }
    { state := [], spawned := [], keymapEvals := [], keymapErrors := [] }
    "acmd" (by decide) rfl (by decide) rfl (by decide)

theorem stepCommand_eq_none (dv : Option Nat) (so : String → Bool) (now : Nat)
    (m : MidiMap) (acc1 : DispatchOutcome) (h : m.command = none) :
    stepCommand dv so now m acc1 = .ok acc1 := by
  unfold stepCommand
  rw [h]

theorem stepKeymap_evals (evalOk : String → Bool) (m : MidiMap)
    (acc : DispatchOutcome) :
    (stepKeymap evalOk m acc).keymapEvals = acc.keymapEvals ++ m.keymap.toList := by
  unfold stepKeymap
  cases m.keymap with
  | none => simp
  | some keymap => by_cases he : evalOk keymap <;> simp [he, Option.toList]

theorem stepCommand_dispatch_true (dv : Option Nat) (so : String → Bool)
    (now : Nat) (m : MidiMap) (acc1 : DispatchOutcome) (c : String)
    (st2 : List (String × Nat)) (hc : m.command = some c) (hc0 : c ≠ "")
    (hsd : should_dispatch c (get_debounce_duration m) now acc1.state = (true, st2))
    (hso : so c = true) :
    stepCommand dv so now m acc1
      = .ok { acc1 with
                state := st2,
                spawned := acc1.spawned ++ [(c, get_computed_velocity dv m)] } := by
  rw [stepCommand_eq_some dv so now m acc1 c hc, if_neg hc0]
  split
  next st heq =>
    rw [hsd] at heq
    simp at heq
  next st heq =>
    rw [hsd] at heq
    injection heq with h1 h2
    subst h2
    rw [if_pos hso]

theorem stepCommand_dispatch_false (dv : Option Nat) (so : String → Bool)
    (now : Nat) (m : MidiMap) (acc1 : DispatchOutcome) (c : String)
    (st2 : List (String × Nat)) (hc : m.command = some c) (hc0 : c ≠ "")
    (hsd : should_dispatch c (get_debounce_duration m) now acc1.state = (false, st2)) :
    stepCommand dv so now m acc1 = .ok acc1 := by
  rw [stepCommand_eq_some dv so now m acc1 c hc, if_neg hc0]
  split
  next st heq => rfl
  next st heq =>
    rw [hsd] at heq
    simp at heq

theorem stepMapping_obs (midi_id note : Nat) (dv : Option Nat)
    (e1 e2 spawnOk : String → Bool) (now : Nat) (hsp : ∀ c, spawnOk c = true)
    (m : MidiMap) (acc1 acc2 : DispatchOutcome)
    (hst : acc1.state = acc2.state) (hsw : acc1.spawned = acc2.spawned)
    (hev : acc1.keymapEvals = acc2.keymapEvals) :
    ∃ b1 b2,
      stepMapping midi_id note dv e1 spawnOk now m acc1 = .ok b1 ∧
      stepMapping midi_id note dv e2 spawnOk now m acc2 = .ok b2 ∧
      b1.state = b2.state ∧ b1.spawned = b2.spawned ∧
      b1.keymapEvals = b2.keymapEvals ∧
      b1.keymapEvals = acc1.keymapEvals ++
        (if mapping_match midi_id note dv m then m.keymap.toList else []) := by
  by_cases hm : mapping_match midi_id note dv m = true
  · have hstep1 : stepMapping midi_id note dv e1 spawnOk now m acc1
        = stepCommand dv spawnOk now m (stepKeymap e1 m acc1) := by
      unfold stepMapping
      rw [if_neg (by simp [hm])]
    have hstep2 : stepMapping midi_id note dv e2 spawnOk now m acc2
        = stepCommand dv spawnOk now m (stepKeymap e2 m acc2) := by
      unfold stepMapping
      rw [if_neg (by simp [hm])]
    have hstates : (stepKeymap e1 m acc1).state = (stepKeymap e2 m acc2).state := by
      rw [stepKeymap_state, stepKeymap_state, hst]
    have hspawns : (stepKeymap e1 m acc1).spawned = (stepKeymap e2 m acc2).spawned := by
      rw [stepKeymap_spawned, stepKeymap_spawned, hsw]
    have hevals : (stepKeymap e1 m acc1).keymapEvals
        = (stepKeymap e2 m acc2).keymapEvals := by
      rw [stepKeymap_evals, stepKeymap_evals, hev]
    have hevals1 : (stepKeymap e1 m acc1).keymapEvals
        = acc1.keymapEvals ++ (if mapping_match midi_id note dv m then
            m.keymap.toList else []) := by
      rw [stepKeymap_evals, if_pos (by simp [hm])]
    cases hc : m.command with
    | none =>
      exact ⟨stepKeymap e1 m acc1, stepKeymap e2 m acc2,
        by rw [hstep1, stepCommand_eq_none dv spawnOk now m _ hc],
        by rw [hstep2, stepCommand_eq_none dv spawnOk now m _ hc],
        hstates, hspawns, hevals, hevals1⟩
    | some c =>
      by_cases hc0 : c = ""
      · subst hc0
        exact ⟨stepKeymap e1 m acc1, stepKeymap e2 m acc2,
          by rw [hstep1, stepCommand_eq_some dv spawnOk now m _ "" hc, if_pos rfl],
          by rw [hstep2, stepCommand_eq_some dv spawnOk now m _ "" hc, if_pos rfl],
          hstates, hspawns, hevals, hevals1⟩
      · rcases hsd : should_dispatch c (get_debounce_duration m) now
            (stepKeymap e1 m acc1).state with ⟨flag, st2⟩
        have hsd2 : should_dispatch c (get_debounce_duration m) now
            (stepKeymap e2 m acc2).state = (flag, st2) := by
          rw [← hstates, hsd]
        cases flag
        · exact ⟨stepKeymap e1 m acc1, stepKeymap e2 m acc2,
            by rw [hstep1,
              stepCommand_dispatch_false dv spawnOk now m _ c st2 hc hc0 hsd],
            by rw [hstep2,
              stepCommand_dispatch_false dv spawnOk now m _ c st2 hc hc0 hsd2],
            hstates, hspawns, hevals, hevals1⟩
        · refine ⟨{ stepKeymap e1 m acc1 with
              state := st2,
              spawned := (stepKeymap e1 m acc1).spawned
                ++ [(c, get_computed_velocity dv m)] },
            { stepKeymap e2 m acc2 with
              state := st2,
              spawned := (stepKeymap e2 m acc2).spawned
                ++ [(c, get_computed_velocity dv m)] },
            by rw [hstep1, stepCommand_dispatch_true dv spawnOk now m _ c st2
              hc hc0 hsd (hsp c)],
            by rw [hstep2, stepCommand_dispatch_true dv spawnOk now m _ c st2
              hc hc0 hsd2 (hsp c)], rfl, ?_, hevals, hevals1⟩
          show (stepKeymap e1 m acc1).spawned ++ _
            = (stepKeymap e2 m acc2).spawned ++ _
          rw [hspawns]
  · refine ⟨acc1, acc2, ?_, ?_, hst, hsw, hev, by simp [hm]⟩
    · unfold stepMapping
      rw [if_pos (by simp [hm])]
    · unfold stepMapping
      rw [if_pos (by simp [hm])]

theorem runMappings_obs (midi_id note : Nat) (dv : Option Nat)
    (e1 e2 spawnOk : String → Bool) (now : Nat) (hsp : ∀ c, spawnOk c = true)
    (l : List MidiMap) :
    ∀ acc1 acc2 : DispatchOutcome,
      acc1.state = acc2.state → acc1.spawned = acc2.spawned →
      acc1.keymapEvals = acc2.keymapEvals →
      ∃ b1 b2,
        runMappings midi_id note dv e1 spawnOk now l acc1 = .ok b1 ∧
        runMappings midi_id note dv e2 spawnOk now l acc2 = .ok b2 ∧
        b1.state = b2.state ∧ b1.spawned = b2.spawned ∧
        b1.keymapEvals = b2.keymapEvals ∧
        b1.keymapEvals = acc1.keymapEvals
          ++ (l.filter (fun m => mapping_match midi_id note dv m)).filterMap
              (fun m => m.keymap) := by
  induction l with
  | nil =>
    intro acc1 acc2 hst hsw hev
    exact ⟨acc1, acc2, rfl, rfl, hst, hsw, hev, by simp⟩
  | cons m ms ih =>
    intro acc1 acc2 hst hsw hev
    obtain ⟨c1, c2, hs1, hs2, h1, h2, h3, h4⟩ :=
      stepMapping_obs midi_id note dv e1 e2 spawnOk now hsp m acc1 acc2 hst hsw hev
    obtain ⟨b1, b2, hr1, hr2, g1, g2, g3, g4⟩ := ih c1 c2 h1 h2 h3
    refine ⟨b1, b2, ?_, ?_, g1, g2, g3, ?_⟩
    · simp only [runMappings, hs1]
      exact hr1
    · simp only [runMappings, hs2]
      exact hr2
    · rw [g4, h4, List.filter_cons]
      by_cases hm : mapping_match midi_id note dv m = true
      · cases hk : m.keymap <;>
          simp [hm, hk, List.filterMap_cons, Option.toList, List.append_assoc]
      · simp [hm]

theorem runMappings_append (midi_id note : Nat) (dv : Option Nat)
    (evalOk spawnOk : String → Bool) (now : Nat) (l1 l2 : List MidiMap)
    (acc : DispatchOutcome) :
    runMappings midi_id note dv evalOk spawnOk now (l1 ++ l2) acc
      = (runMappings midi_id note dv evalOk spawnOk now l1 acc).bind
          (runMappings midi_id note dv evalOk spawnOk now l2) := by
  induction l1 generalizing acc with
  | nil => rfl
  | cons m ms ih =>
    simp only [List.cons_append, runMappings]
    cases stepMapping midi_id note dv evalOk spawnOk now m acc with
    | ok acc2 => exact ih acc2
    | panicked s2 => rfl

/-- C7 — the dispatcher processes the rule list strictly first-to-last with
no early exit short of a panic (splitting the rule list anywhere gives the
same result as running the prefix and then the suffix from the reached
state), and when every spawn succeeds the whole event is processed: every
matching rule's keymap is evaluated, in table order, and the debounce state
and the spawned commands are completely independent of which keymap
evaluations fail — a keymap error in one matching rule never prevents a
later matching rule from dispatching its command. -/
theorem dispatch_order_and_keymap_error_isolation (midi_id note : Nat)
    (rest : List Nat) (s : Settings) (debounce_state : List (String × Nat))
    (now : Nat) (e1 e2 spawnOk : String → Bool)
    (hsp : ∀ c, spawnOk c = true) :
    (∀ l1 l2 acc,
      runMappings midi_id note rest.head? e1 spawnOk now (l1 ++ l2) acc
        = (runMappings midi_id note rest.head? e1 spawnOk now l1 acc).bind
            (runMappings midi_id note rest.head? e1 spawnOk now l2)) ∧
    (∃ b1 b2,
      process_midi_message (midi_id :: note :: rest) s debounce_state now
          e1 spawnOk = .ok b1 ∧
      process_midi_message (midi_id :: note :: rest) s debounce_state now
          e2 spawnOk = .ok b2 ∧
      b1.state = b2.state ∧ b1.spawned = b2.spawned ∧
      b1.keymapEvals = b2.keymapEvals ∧
      b1.keymapEvals = (s.midi_mapping.filter
          (fun m => mapping_match midi_id note rest.head? m)).filterMap
          (fun m => m.keymap)) := by
  constructor
  · intro l1 l2 acc
    exact runMappings_append midi_id note rest.head? e1 spawnOk now l1 l2 acc
  · obtain ⟨b1, b2, hr1, hr2, g1, g2, g3, g4⟩ :=
      runMappings_obs midi_id note rest.head? e1 e2 spawnOk now hsp
        s.midi_mapping
        { state := debounce_state, spawned := [], keymapEvals := [],
          keymapErrors := [] }
        { state := debounce_state, spawned := [], keymapEvals := [],
          keymapErrors := [] } rfl rfl rfl
    exact ⟨b1, b2, hr1, hr2, g1, g2, g3, by rw [g4]; simp⟩

/-- C7 witness: two matching rules, the first with keymap `K1` (whose
evaluation fails under the first oracle and succeeds under the second) and
the second with command `bcmd`; with all spawns succeeding, both oracles
produce the same dispatch observables and both keymaps of matching rules are
evaluated. -/
theorem dispatch_order_and_keymap_error_isolation_witness :
    ∃ b1 b2,
      process_midi_message [144, 60, 100]
          { device_port_name := "pad",
            midi_mapping :=
              [{ midi_id := 144, note := 60, keymap := some "K1",
                 velocity := none, command := none, options := none,
                 mouse := none },
               { midi_id := 144, note := 60, keymap := none, velocity := none,
                 command := some "bcmd", options := none, mouse := none }] }
          [] 0 (fun _ => false) (fun _ => true) = .ok b1 ∧
      process_midi_message [144, 60, 100]
          { device_port_name := "pad",
            midi_mapping :=
              [{ midi_id := 144, note := 60, keymap := some "K1",
                 velocity := none, command := none, options := none,
                 mouse := none },
               { midi_id := 144, note := 60, keymap := none, velocity := none,
                 command := some "bcmd", options := none, mouse := none }] }
          [] 0 (fun _ => true) (fun _ => true) = .ok b2 ∧
      b1.state = b2.state ∧ b1.spawned = b2.spawned ∧
      b1.keymapEvals = b2.keymapEvals ∧
      b1.keymapEvals = (List.filter
          (fun m => mapping_match 144 60 (List.head? [100]) m)
          [{ midi_id := 144, note := 60, keymap := some "K1", velocity := none,
             command := none, options := none, mouse := none },
           { midi_id := 144, note := 60, keymap := none, velocity := none,
             command := some "bcmd", options := none, mouse := none }]).filterMap
          (fun m => m.keymap) :=
  (dispatch_order_and_keymap_error_isolation 144 60 [100]
    { device_port_name := "pad",
      midi_mapping :=
        [{ midi_id := 144, note := 60, keymap := some "K1", velocity := none,
           command := none, options := none, mouse := none },
         { midi_id := 144, note := 60, keymap := none, velocity := none,
           command := some "bcmd", options := none, mouse := none }] }
    [] 0 (fun _ => false) (fun _ => true) (fun _ => true)
    (fun _ => rfl)).2

end Mtkd
